import Mathlib

/-!
Verification of the mcp-connector relay: a shallow embedding of the
message-relay / OAuth-interrupt subsystem (McpProxy, ProxyClient.setup,
DefaultAuthProvider, OAuthProxyServer callback handler, OAuthDialogManager)
together with proofs of the specification claims about it.

JavaScript `Map` objects keyed by strings are modelled as association lists
with JS `Map` semantics (`set` replaces in place, `delete` removes, `get`
returns the first binding).  Process-wide mutation is modelled by explicit
state passing; `process.exit(n)` is modelled as an `Option Nat` exit code
threaded through each operation.  Promise continuations (`.then`/`.catch` of
`transport.send`) are modelled by an explicit `SendOutcome` argument applied
after the synchronous remainder of the caller, matching the event-loop
ordering.
-/

namespace McpConnector

/-- A JavaScript `Map` with string keys, as an association list. -/
def SMap (α : Type) : Type := List (String × α)

namespace SMap

/-- JS `Map.prototype.get`: first binding for the key, if any. -/
def get? {α : Type} : SMap α → String → Option α
  | [], _ => none
  | (k', v) :: rest, k => if k' = k then some v else get? rest k

/-- JS `Map.prototype.set`: replace the binding in place, else append. -/
def set {α : Type} : SMap α → String → α → SMap α
  | [], k, v => [(k, v)]
  | (k', v') :: rest, k, v =>
      if k' = k then (k, v) :: rest else (k', v') :: set rest k v

/-- JS `Map.prototype.delete`: remove every binding for the key. -/
def del {α : Type} : SMap α → String → SMap α
  | [], _ => []
  | (k', v) :: rest, k =>
      if k' = k then del rest k else (k', v) :: del rest k

/-- JS `Map.prototype.has`. -/
def has {α : Type} (m : SMap α) (k : String) : Bool :=
  (m.get? k).isSome

/-- Number of bindings a key has (a well-formed JS map has at most one). -/
def countKey {α : Type} (m : SMap α) (k : String) : Nat :=
  List.countP (fun p => decide (p.1 = k)) m

/-- Well-formedness: every key is bound at most once, as in a real JS `Map`. -/
def WF {α : Type} (m : SMap α) : Prop :=
  ∀ k, m.countKey k ≤ 1

theorem get?_set_self {α : Type} (m : SMap α) (k : String) (v : α) :
    (m.set k v).get? k = some v := by
  induction m with
  | nil => simp [set, get?]
  | cons hd tl ih =>
      obtain ⟨k', v'⟩ := hd
      by_cases h : k' = k
      · simp [set, h, get?]
      · simp [set, h, get?, ih]

theorem get?_set_ne {α : Type} (m : SMap α) (k k' : String) (v : α)
    (h : k' ≠ k) : (m.set k v).get? k' = m.get? k' := by
  have hk : k ≠ k' := Ne.symm h
  induction m with
  | nil => simp [set, get?, hk]
  | cons hd tl ih =>
      obtain ⟨k₀, v₀⟩ := hd
      by_cases h₀ : k₀ = k
      · subst h₀
        simp [set, get?, hk]
      · simp [set, h₀, get?, ih]

theorem get?_del_self {α : Type} (m : SMap α) (k : String) :
    (m.del k).get? k = none := by
  induction m with
  | nil => simp [del, get?]
  | cons hd tl ih =>
      obtain ⟨k', v'⟩ := hd
      by_cases h : k' = k
      · simp [del, h, ih]
      · simp [del, h, get?, ih]

theorem countKey_cons {α : Type} (k₀ : String) (v₀ : α) (tl : SMap α)
    (k' : String) :
    countKey ((k₀, v₀) :: tl) k' =
      (if k₀ = k' then 1 else 0) + countKey tl k' := by
  by_cases h : k₀ = k'
  · simp [countKey, List.countP_cons, h]
    omega
  · simp [countKey, List.countP_cons, h]

theorem countKey_set_ne {α : Type} (m : SMap α) (k k' : String) (v : α)
    (h : k' ≠ k) : (m.set k v).countKey k' = m.countKey k' := by
  have hk : k ≠ k' := Ne.symm h
  induction m with
  | nil => simp [set, countKey_cons, countKey, hk]
  | cons hd tl ih =>
      obtain ⟨k₀, v₀⟩ := hd
      by_cases h₀ : k₀ = k
      · subst h₀
        simp [set, countKey_cons, hk]
      · simp [set, h₀, countKey_cons, ih]

theorem countKey_set_self {α : Type} (m : SMap α) (k : String) (v : α) :
    (m.set k v).countKey k =
      if m.countKey k = 0 then 1 else m.countKey k := by
  induction m with
  | nil => simp [set, countKey_cons, countKey]
  | cons hd tl ih =>
      obtain ⟨k₀, v₀⟩ := hd
      by_cases h₀ : k₀ = k
      · subst h₀
        simp [set, countKey_cons]
      · simp [set, h₀, countKey_cons, ih]

theorem wf_set {α : Type} (m : SMap α) (k : String) (v : α)
    (h : m.WF) : (m.set k v).WF := by
  intro k'
  by_cases hk : k' = k
  · subst hk
    rw [countKey_set_self]
    have := h k'
    split <;> omega
  · rw [countKey_set_ne m k k' v hk]
    exact h k'

end SMap

instance {α : Type} [DecidableEq α] : DecidableEq (SMap α) :=
  inferInstanceAs (DecidableEq (List (String × α)))

/-! ### OAuth state registry (interface.ts `OAuthState`, auth-provider.ts) -/

/-- Entity `OAuthState` from interface.ts: one in-flight or completed auth attempt. -/
structure OAuthState where
  timestamp : Int
  url : String
deriving DecidableEq

/-- JS truthiness of an optional string (query parameter or stored value):
`undefined` and the empty string are falsy. -/
def isTruthy : Option String → Bool
  | none => false
  | some s => s != ""

/-- Embedding of `DefaultAuthProvider.verifyOAuthState` (auth-provider.ts): looks the state
token up in the in-flight registry; a hit older than `maxAge = 300000` ms is
deleted from the registry and rejected; a fresh hit is accepted.  Returns the
boolean result together with the registry after the check. -/
def verifyOAuthState (state : String) (globalStateStore : SMap OAuthState)
    (now : Int) : Bool × SMap OAuthState :=
  match globalStateStore.get? state with
  | none => (false, globalStateStore)
  | some stateData =>
      if now - stateData.timestamp > 300000 then
        (false, globalStateStore.del state)
      else
        (true, globalStateStore)

/-! ### The `GET /callback` handler (oauth-proxy-server.ts `setupRoutes`) -/

/-- The HTML page rendered by the callback handler
(`HTMLRenderer.renderErrorPage` / `renderSuccessPage`). -/
inductive CallbackResponse where
  | errorPage (title message : String)
  | successPage (url : String) (stateAuthCompleted : Bool)
deriving DecidableEq

/-- Observable outcome of one `GET /callback` request: the rendered page, the
codes passed to `clientTransport.finishAuth`, both state registries after the
request, the payloads of emitted `oauth-success` events, and whether a stop of
the callback server was requested (immediately or on a timer). -/
structure CallbackOutcome where
  response : CallbackResponse
  finishAuthCalls : List String
  globalStateStore : SMap OAuthState
  globalStateStoreCompleted : SMap OAuthState
  emitted : List (Option String)
  stopRequested : Bool
deriving DecidableEq

/-- The JS expression `entry?.url || "null"` used for the success page. -/
def urlOrNull : Option OAuthState → String
  | some st => if st.url = "" then "null" else st.url
  | none => "null"

/-- The `GET /callback` route of `OAuthProxyServer.setupRoutes`
(oauth-proxy-server.ts): extract `code`, `state`, `error`; render an error page
when `error` is truthy or `state`/`code` is missing; otherwise validate the
state via `verifyOAuthState`.  An invalid state that is present in the
completed registry yields an already-authenticated success page without a
second `finishAuth`; a valid state runs `finishAuth(code)`, moves the entry
from the in-flight to the completed registry and emits `oauth-success`.
`finishAuthFails` models `finishAuth` rejecting, which lands in the
handler's catch block. -/
def handleCallback (code state error : Option String)
    (globalStateStore globalStateStoreCompleted : SMap OAuthState)
    (now : Int) (finishAuthFails : Bool) : CallbackOutcome :=
  if isTruthy error then
    { response := .errorPage "Authentication Failed" ("OAuth Error: " ++ error.getD ""),
      finishAuthCalls := [],
      globalStateStore := globalStateStore,
      globalStateStoreCompleted := globalStateStoreCompleted,
      emitted := [], stopRequested := true }
  else if !(isTruthy state) || !(isTruthy code) then
    { response := .errorPage "Authentication Failed" "Missing required parameters.",
      finishAuthCalls := [],
      globalStateStore := globalStateStore,
      globalStateStoreCompleted := globalStateStoreCompleted,
      emitted := [], stopRequested := true }
  else
    let s := state.getD ""
    let c := code.getD ""
    let vr := verifyOAuthState s globalStateStore now
    if !vr.1 then
      if globalStateStoreCompleted.has s then
        { response := .successPage (urlOrNull (globalStateStoreCompleted.get? s)) true,
          finishAuthCalls := [],
          globalStateStore := vr.2,
          globalStateStoreCompleted := globalStateStoreCompleted,
          emitted := [], stopRequested := true }
      else
        { response := .errorPage "Authentication Failed" "Invalid or expired authentication state.",
          finishAuthCalls := [],
          globalStateStore := vr.2,
          globalStateStoreCompleted := globalStateStoreCompleted,
          emitted := [], stopRequested := true }
    else
      let oauthStateValue := vr.2.get? s
      if finishAuthFails then
        { response := .errorPage "Internal Error" "An unexpected error occurred during authentication.",
          finishAuthCalls := [c],
          globalStateStore := vr.2,
          globalStateStoreCompleted := globalStateStoreCompleted,
          emitted := [], stopRequested := true }
      else
        { response := .successPage (urlOrNull oauthStateValue) false,
          finishAuthCalls := [c],
          globalStateStore := vr.2.del s,
          globalStateStoreCompleted :=
            match oauthStateValue with
            | some v => globalStateStoreCompleted.set s v
            | none => globalStateStoreCompleted,
          emitted := [oauthStateValue.map OAuthState.url],
          stopRequested := false }

/-! ### Token records (interface.ts, token-manager.ts, auth-provider.ts) -/

/-- Entity `TokenSchema` (interface.ts): the stored Token Record as read back from
the token file.  Fields may be absent in the JSON, hence `Option`. -/
structure TokenSchema where
  access_token : Option String
  token_type : Option String
  refresh_token : Option String
  expires_in : Option Int
  createdAt : Option Int
deriving DecidableEq

/-- The bare OAuth token shape (`OAuthTokens` of the MCP SDK): no
`createdAt`. -/
structure OAuthTokens where
  access_token : Option String
  token_type : Option String
  refresh_token : Option String
  expires_in : Option Int
deriving DecidableEq

/-- The rest-spread `const (createdAt, ...tokenWithoutCreatedAt) = stored`
in `DefaultAuthProvider.tokens`. -/
def omitCreatedAt (st : TokenSchema) : OAuthTokens :=
  { access_token := st.access_token, token_type := st.token_type,
    refresh_token := st.refresh_token, expires_in := st.expires_in }

/-- Embedding of `DefaultAuthProvider.tokens` (auth-provider.ts): returns the stored Token
Record without `createdAt` when both `access_token` and `token_type` pass the
`typeof x === "string"` checks (an `Option String` field is a string exactly
when it is `some`); otherwise `undefined`. -/
def tokens (storedTokenData : Option TokenSchema) : Option OAuthTokens :=
  match storedTokenData with
  | some st =>
      if st.access_token.isSome && st.token_type.isSome then
        some (omitCreatedAt st)
      else none
  | none => none

/-- Embedding of `TokenManager.saveToken`: stamps `createdAt = Date.now()` and writes the
record. -/
def saveToken (tok : OAuthTokens) (now : Int) : TokenSchema :=
  { access_token := tok.access_token, token_type := tok.token_type,
    refresh_token := tok.refresh_token, expires_in := tok.expires_in,
    createdAt := some now }

/-! ### McpProxy instance state (mcp-proxy.ts) -/

/-- JSON-RPC messages are opaque to the relay logic modelled here. -/
def JSONRPCMessage : Type := String

instance : DecidableEq JSONRPCMessage := inferInstanceAs (DecidableEq String)

/-- The mutable per-instance fields of `McpProxy` that the claims are about:
`currentRetry` (401 on initial connect), `currentRefreshRetry` (401 via
refresh token) and the parked-message slot `stalledMsgByUnAuth`. -/
structure ProxyState where
  currentRetry : Nat
  currentRefreshRetry : Nat
  stalledMsgByUnAuth : Option JSONRPCMessage
deriving DecidableEq

/-- Field initialisers of a freshly constructed `McpProxy`. -/
def freshProxyState : ProxyState :=
  { currentRetry := 0, currentRefreshRetry := 0, stalledMsgByUnAuth := none }

/-- Embedding of `McpProxy.validateRefTokenUnauth` (mcp-proxy.ts): when
`currentRefreshRetry` is already above zero, remove the stored token file and
reset the counter; in every case the trailing `this.refreshRetry++` then
increments it.  `tokenFile` is the stored Token Record that
`tokenManager.removeToken(url)` deletes. -/
def validateRefTokenUnauth (p : ProxyState) (tokenFile : Option TokenSchema) :
    ProxyState × Option TokenSchema :=
  let step :=
    if p.currentRefreshRetry > 0 then
      ({ p with currentRefreshRetry := 0 }, (none : Option TokenSchema))
    else (p, tokenFile)
  ({ step.1 with currentRefreshRetry := step.1.currentRefreshRetry + 1 },
   step.2)

/-- The guard of `DefaultAuthProvider.saveTokens`: a stored record exists with
a truthy `refresh_token` byte-identical to the truthy incoming
`refresh_token`. -/
def identicalRefresh (stored : Option TokenSchema) (tok : OAuthTokens) : Bool :=
  match stored with
  | none => false
  | some st =>
      isTruthy st.refresh_token && isTruthy tok.refresh_token &&
        (st.refresh_token == tok.refresh_token)

/-- Outcome of one `DefaultAuthProvider.saveTokens` call: the token file after
the call, the proxy instance after the call, and whether
`tokenManager.saveToken` ran (`committed`). -/
structure SaveTokensResult where
  tokenFile : Option TokenSchema
  proxy : Option ProxyState
  committed : Bool
deriving DecidableEq

/-- Embedding of `DefaultAuthProvider.saveTokens` (auth-provider.ts): on an identical
refresh token it runs `validateRefTokenUnauth` on the registered proxy
instance (if any) and commits the save only when `refreshRetry === 0`
afterwards; otherwise it commits unconditionally. -/
def saveTokens (tok : OAuthTokens) (stored : Option TokenSchema)
    (proxyInstance : Option ProxyState) (now : Int) : SaveTokensResult :=
  if identicalRefresh stored tok then
    match proxyInstance with
    | some p =>
        let vr := validateRefTokenUnauth p stored
        if vr.1.currentRefreshRetry = 0 then
          { tokenFile := some (saveToken tok now), proxy := some vr.1,
            committed := true }
        else
          { tokenFile := vr.2, proxy := some vr.1, committed := false }
    | none => { tokenFile := stored, proxy := none, committed := false }
  else
    { tokenFile := some (saveToken tok now), proxy := proxyInstance,
      committed := true }

/-! ### Sending and the park-replay machine (mcp-proxy.ts, proxy-client.ts) -/

/-- Embedding of `hasKeyInJson` (cli-util.ts): `Object.prototype.hasOwnProperty`. -/
def hasKeyInJson (obj : SMap String) (key : String) : Bool :=
  (obj.get? key).isSome

/-- The fields of `ROOT_CONFIG` (constants.ts) that the relay reads. -/
structure RootConfig where
  headers : SMap String
  unauthRetries : Nat
deriving DecidableEq

/-- The literal initialiser of `ROOT_CONFIG` in constants.ts:
`unauthRetries: 3` and empty `headers`. -/
def defaultRootConfig : RootConfig := { headers := [], unauthRetries := 3 }

/-- Resolution of one `transportToServer.send(message)` promise. -/
inductive SendOutcome where
  | ok
  | authError
  | otherError
deriving DecidableEq

/-- The `.then`/`.catch` continuation in
`McpProxy.sendServerTransportMessage`: success resets both retry counters to
zero; an authorization failure (an `UnauthorizedError` or a message containing
"Unauthorized") with a static `Authorization` header in the cli headers exits
the process with code 1, and otherwise increments `currentRetry` and parks the
message in `stalledMsgByUnAuth`; other errors are only logged.  Returns the
updated instance and an optional process exit code. -/
def resolveSend (cfg : RootConfig) (message : JSONRPCMessage)
    (outcome : SendOutcome) (p : ProxyState) : ProxyState × Option Nat :=
  match outcome with
  | .ok => ({ p with currentRetry := 0, currentRefreshRetry := 0 }, none)
  | .authError =>
      if hasKeyInJson cfg.headers "Authorization" then
        (p, some 1)
      else
        ({ p with currentRetry := p.currentRetry + 1,
                  stalledMsgByUnAuth := some message }, none)
  | .otherError => (p, none)

/-- Observable result of `McpProxy.sendServerTransportMessage`: the instance
state once the promise resolved, the messages handed to
`transportToServer.send`, and an optional process exit code. -/
structure SendResult where
  state : ProxyState
  attempts : List JSONRPCMessage
  exitCode : Option Nat
deriving DecidableEq

/-- Embedding of `McpProxy.sendServerTransportMessage`: exactly one `send` attempt, whose
outcome is applied by `resolveSend`. -/
def sendServerTransportMessage (cfg : RootConfig) (message : JSONRPCMessage)
    (outcome : SendOutcome) (p : ProxyState) : SendResult :=
  let r := resolveSend cfg message outcome p
  { state := r.1, attempts := [message], exitCode := r.2 }

/-- Observable result of one `ProxyClient.setup` call on the process-wide
`AUTH_CONSTANTS.proxyInstances` registry. -/
structure SetupResult where
  proxyInstances : SMap ProxyState
  attempts : List JSONRPCMessage
  exitCode : Option Nat
  createdNewProxy : Bool
deriving DecidableEq

/-- The synchronous part of `ProxyClient.setup` (proxy-client.ts): a
registered instance with a parked message either exits with code 1 (retry
budget exhausted) or re-sends the parked message and sets the slot to `null`
before yielding to the event loop; a registered instance with no parked
message is left untouched; an unregistered url hash constructs fresh
transports and a fresh `McpProxy` and registers it.  The second component is
the replayed send whose promise continuation is still pending on return. -/
def setupSync (cfg : RootConfig) (urlHash : String)
    (proxyInstances : SMap ProxyState) : SetupResult × Option JSONRPCMessage :=
  match proxyInstances.get? urlHash with
  | some proxyInstance =>
      match proxyInstance.stalledMsgByUnAuth with
      | some pendingMsg =>
          if proxyInstance.currentRetry ≥ cfg.unauthRetries then
            ({ proxyInstances := proxyInstances, attempts := [],
               exitCode := some 1, createdNewProxy := false }, none)
          else
            ({ proxyInstances := proxyInstances.set urlHash
                 { proxyInstance with stalledMsgByUnAuth := none },
               attempts := [pendingMsg], exitCode := none,
               createdNewProxy := false }, some pendingMsg)
      | none =>
          ({ proxyInstances := proxyInstances, attempts := [],
             exitCode := none, createdNewProxy := false }, none)
  | none =>
      ({ proxyInstances := proxyInstances.set urlHash freshProxyState,
         attempts := [], exitCode := none, createdNewProxy := true }, none)

/-- The pending send continuation of a replay, applied to the instance
registered under the url hash. -/
def applyOutcome (cfg : RootConfig) (urlHash : String)
    (message : JSONRPCMessage) (outcome : SendOutcome)
    (proxyInstances : SMap ProxyState) : SMap ProxyState × Option Nat :=
  match proxyInstances.get? urlHash with
  | some p =>
      let r := resolveSend cfg message outcome p
      (proxyInstances.set urlHash r.1, r.2)
  | none => (proxyInstances, none)

/-- Embedding of `ProxyClient.setup` including the resolution of the replayed send. -/
def setup (cfg : RootConfig) (urlHash : String)
    (proxyInstances : SMap ProxyState) (outcome : SendOutcome) : SetupResult :=
  let r := setupSync cfg urlHash proxyInstances
  match r.2 with
  | none => r.1
  | some msg =>
      let ao := applyOutcome cfg urlHash msg outcome r.1.proxyInstances
      { proxyInstances := ao.1, attempts := r.1.attempts,
        exitCode := ao.2, createdNewProxy := r.1.createdNewProxy }

/-- Whether the server transport is constructed with the auth provider
attached (proxy-client.ts: `authProvider: hasKeyInJson(ROOT_CONFIG.headers,
"Authorization") ? undefined : authProvider`). -/
def authProviderAttached (cfg : RootConfig) : Bool :=
  !(hasKeyInJson cfg.headers "Authorization")

/-- Entity `MCPServerConfig` (interface.ts). -/
structure MCPServerConfig where
  name : String
  url : String
  port : Option Nat
deriving DecidableEq

/-- The `oauth-success` handler registered in
`DefaultAuthProvider.startProxyServer` (auth-provider.ts): look the Server
Identity up in `ROOT_CONFIG.servers` by url hash; a hit re-runs
`ProxyClient.setup`, a miss logs and exits the process with code 1.
`urlHash` stands for `TokenManager.hashUrl` of the emitted url. -/
def onOauthSuccess (cfg : RootConfig) (servers : SMap MCPServerConfig)
    (urlHash : String) (proxyInstances : SMap ProxyState)
    (outcome : SendOutcome) : SetupResult :=
  match servers.get? urlHash with
  | some _ => setup cfg urlHash proxyInstances outcome
  | none =>
      { proxyInstances := proxyInstances, attempts := [],
        exitCode := some 1, createdNewProxy := false }

/-- Runs `k` consecutive oauth-success replays whose re-sends all fail with an
authorization error again; stops counting once the process has exited.
Returns the number of `transportToServer.send` attempts made. -/
def runFailingReplays (cfg : RootConfig) (urlHash : String) :
    Nat → SMap ProxyState → Option Nat → Nat
  | 0, _, _ => 0
  | k + 1, proxyInstances, exitCode =>
      match exitCode with
      | some _ => 0
      | none =>
          let r := setup cfg urlHash proxyInstances .authError
          r.attempts.length +
            runFailingReplays cfg urlHash k r.proxyInstances r.exitCode

/-- Total number of `transportToServer.send` attempts for one parked
authorization failure: the initial failing send from a fresh instance plus
`k` subsequent replays that all fail with an authorization error again. -/
def oneParkedFailureAttempts (cfg : RootConfig) (urlHash : String)
    (m : JSONRPCMessage) (k : Nat) : Nat :=
  let r := sendServerTransportMessage cfg m .authError freshProxyState
  r.attempts.length +
    runFailingReplays cfg urlHash k (SMap.set [] urlHash r.state) r.exitCode

/-! ### base64url and SHA-256 (embedding of the crypto / Buffer platform
functions used by the PKCE helpers in auth-provider.ts) -/

/-- The base64url alphabet used by `Buffer.prototype.toString("base64url")`
(RFC 4648 url-safe, no padding). -/
def base64urlAlphabet : List Char :=
  "ABCDEFGHIJKLMNOPQRSTUVWXYZabcdefghijklmnopqrstuvwxyz0123456789-_".toList

/-- Groups of 6-bit values of a byte list (big-endian within each 3-byte
group), as produced by base64 without padding. -/
def base64urlChunks : List Nat → List Nat
  | [] => []
  | [a] => [a / 4, a % 4 * 16]
  | [a, b] => [a / 4, a % 4 * 16 + b / 16, b % 16 * 4]
  | a :: b :: c :: rest =>
      a / 4 :: (a % 4 * 16 + b / 16) :: (b % 16 * 4 + c / 64) :: c % 64 ::
        base64urlChunks rest

/-- Embedding of `Buffer.from(bytes).toString("base64url")`. -/
def base64urlEncode (bytes : List Nat) : String :=
  String.mk ((base64urlChunks bytes).map (fun n => base64urlAlphabet.getD n 'A'))

/-- Two to the 32nd, the word modulus of SHA-256. -/
def pow32 : Nat := 4294967296

/-- Rotate a word of the SHA-256 state right by n bit positions, on Nat with an explicit word modulus. -/
def rotr32 (n x : Nat) : Nat :=
  (x / 2 ^ n + x % 2 ^ n * 2 ^ (32 - n)) % pow32

def bigSigma0 (x : Nat) : Nat := rotr32 2 x ^^^ rotr32 13 x ^^^ rotr32 22 x

def bigSigma1 (x : Nat) : Nat := rotr32 6 x ^^^ rotr32 11 x ^^^ rotr32 25 x

def smallSigma0 (x : Nat) : Nat := rotr32 7 x ^^^ rotr32 18 x ^^^ x / 2 ^ 3

def smallSigma1 (x : Nat) : Nat := rotr32 17 x ^^^ rotr32 19 x ^^^ x / 2 ^ 10

def chFn (x y z : Nat) : Nat := x &&& y ^^^ ((pow32 - 1 - x % pow32) &&& z)

def majFn (x y z : Nat) : Nat := x &&& y ^^^ (x &&& z) ^^^ (y &&& z)

/-- The 64 SHA-256 round constants (FIPS 180-4). -/
def sha256K : List Nat :=
  [1116352408, 1899447441, 3049323471, 3921009573, 961987163,
   1508970993, 2453635748, 2870763221, 3624381080, 310598401,
   607225278, 1426881987, 1925078388, 2162078206, 2614888103,
   3248222580, 3835390401, 4022224774, 264347078, 604807628,
   770255983, 1249150122, 1555081692, 1996064986, 2554220882,
   2821834349, 2952996808, 3210313671, 3336571891, 3584528711,
   113926993, 338241895, 666307205, 773529912, 1294757372,
   1396182291, 1695183700, 1986661051, 2177026350, 2456956037,
   2730485921, 2820302411, 3259730800, 3345764771, 3516065817,
   3600352804, 4094571909, 275423344, 430227734, 506948616,
   659060556, 883997877, 958139571, 1322822218, 1537002063,
   1747873779, 1955562222, 2024104815, 2227730452, 2361852424,
   2428436474, 2756734187, 3204031479, 3329325298]

/-- The initial SHA-256 hash value (FIPS 180-4). -/
def sha256H0 : List Nat :=
  [1779033703, 3144134277, 1013904242, 2773480762,
   1359893119, 2600822924, 528734635, 1541459225]

/-- SHA-256 padding: append 0x80, zero bytes up to 56 mod 64, and the 64-bit
big-endian bit length. -/
def sha256Pad (msg : List Nat) : List Nat :=
  let len := msg.length
  let bitLen := 8 * len
  let padZeros := (119 - len % 64) % 64
  msg ++ 128 :: List.replicate padZeros 0 ++
    [bitLen / 2 ^ 56 % 256, bitLen / 2 ^ 48 % 256, bitLen / 2 ^ 40 % 256,
     bitLen / 2 ^ 32 % 256, bitLen / 2 ^ 24 % 256, bitLen / 2 ^ 16 % 256,
     bitLen / 2 ^ 8 % 256, bitLen % 256]

/-- Big-endian 32-bit words of a byte list. -/
def toWords : List Nat → List Nat
  | a :: b :: c :: d :: rest =>
      (((a * 256 + b) * 256 + c) * 256 + d) :: toWords rest
  | _ => []

/-- Extend a 16-word block schedule by `k` further words. -/
def extendW (w : List Nat) : Nat → List Nat
  | 0 => w
  | k + 1 =>
      let w' := extendW w k
      let t := w'.length
      w' ++ [(smallSigma1 (w'.getD (t - 2) 0) + w'.getD (t - 7) 0 +
              smallSigma0 (w'.getD (t - 15) 0) + w'.getD (t - 16) 0) % pow32]

/-- One SHA-256 compression round on the working variables a..h. -/
def compressStep (k w : Nat) (s : List Nat) : List Nat :=
  match s with
  | [a, b, c, d, e, f, g, h] =>
      let t1 := (h + bigSigma1 e + chFn e f g + k + w) % pow32
      let t2 := (bigSigma0 a + majFn a b c) % pow32
      [(t1 + t2) % pow32, a, b, c, (d + t1) % pow32, e, f, g]
  | s => s

/-- Compress one 64-byte block into the running hash. -/
def compressBlock (hs : List Nat) (block : List Nat) : List Nat :=
  let w := extendW (toWords block) 48
  let final := (List.zip sha256K w).foldl (fun s kw => compressStep kw.1 kw.2 s) hs
  (List.zip hs final).map (fun p => (p.1 + p.2) % pow32)

/-- Split a byte list into 64-byte chunks. -/
def chunk64 (l : List Nat) : List (List Nat) :=
  if h : l = [] then []
  else l.take 64 :: chunk64 (l.drop 64)
termination_by l.length
decreasing_by
  have hpos : 0 < l.length := List.length_pos.mpr h
  simp only [List.length_drop]
  omega

/-- SHA-256 of a byte list (bytes in, 32 digest bytes out). -/
def sha256 (msg : List Nat) : List Nat :=
  let hs := (chunk64 (sha256Pad msg)).foldl compressBlock sha256H0
  hs.foldr
    (fun w acc => w / 2 ^ 24 % 256 :: w / 2 ^ 16 % 256 :: w / 2 ^ 8 % 256 ::
      w % 256 :: acc) []

/-! ### PKCE helpers (auth-provider.ts) -/

/-- Byte encoding applied by `createHash("sha256").update(verifier, "ascii")`
(each UTF-16 code unit masked to a byte). -/
def asciiBytes (s : String) : List Nat :=
  s.toList.map (fun c => c.toNat % 256)

/-- Embedding of `DefaultAuthProvider.generatePKCECodeVerifier`: `randomBytes(32)` encoded
base64url; the random bytes are passed explicitly. -/
def generatePKCECodeVerifier (randBytes : List Nat) : String :=
  base64urlEncode randBytes

/-- Embedding of `DefaultAuthProvider.codeVerifier` (auth-provider.ts): return the cached
verifier for the url hash when truthy, else generate a fresh one from
`randomBytes(32)`, cache it under the url hash and return it.
`codeVerifierStore` is `AUTH_CONSTANTS.codeVerifierStore`. -/
def codeVerifier (urlHash : String) (codeVerifierStore : SMap String)
    (randBytes : List Nat) : String × SMap String :=
  let verifier := codeVerifierStore.get? urlHash
  if isTruthy verifier then (verifier.getD "", codeVerifierStore)
  else
    let v := generatePKCECodeVerifier randBytes
    (v, codeVerifierStore.set urlHash v)

/-- Embedding of `DefaultAuthProvider.generateCodeChallenge`: SHA-256 of the verifier (the
argument when truthy, else `this.codeVerifier()`), base64url encoded. -/
def generateCodeChallenge (codeVerifierArg : Option String) (urlHash : String)
    (codeVerifierStore : SMap String) (randBytes : List Nat) : String :=
  let verifier :=
    if isTruthy codeVerifierArg then codeVerifierArg.getD ""
    else (codeVerifier urlHash codeVerifierStore randBytes).1
  base64urlEncode (sha256 (asciiBytes verifier))

/-- Embedding of `DefaultAuthProvider.getCodeChallengeMethod`. -/
def getCodeChallengeMethod : String := "S256"

/-- The challenge exactly as the spec words it: the URL-safe base64 encoding
of the SHA-256 digest of the verifier. -/
def specCodeChallenge (verifier : String) : String :=
  base64urlEncode (sha256 (asciiBytes verifier))

/-! ### URL sanitizing (dialog-manager.ts `OAuthDialogManager.sanitizeUrl`) -/

/-- ASCII lower casing of one character. -/
def asciiLowerChar (c : Char) : Char :=
  if 65 ≤ c.toNat && c.toNat ≤ 90 then Char.ofNat (c.toNat + 32) else c

/-- ASCII lower casing, as applied by the WHATWG URL parser to scheme and
host. -/
def asciiLower (s : String) : String :=
  String.mk (s.toList.map asciiLowerChar)

def isSchemeStartChar (c : Char) : Bool := c.isAlpha

def isSchemeChar (c : Char) : Bool :=
  c.isAlphanum || c = '+' || c = '-' || c = '.'

/-- Model of a parsed WHATWG URL: the components `sanitizeUrl` reads. -/
structure URLRec where
  protocol : String
  hostname : String
  hasAuthority : Bool
  rest : String
deriving DecidableEq

/-- Model of `URL.prototype.toString` on the modelled fragment. -/
def urlToString (u : URLRec) : String :=
  u.protocol ++ (if u.hasAuthority then "//" ++ u.hostname else "") ++ u.rest

/-- Scheme of an absolute URL reference: a leading alpha-started run of
scheme characters terminated by a colon.  Returns the lower-cased scheme and
the characters after the colon. -/
def parseScheme (s : String) : Option (String × List Char) :=
  match s.toList.dropWhile isSchemeChar with
  | ':' :: rest =>
      match s.toList.takeWhile isSchemeChar with
      | c :: cs =>
          if isSchemeStartChar c then
            some (asciiLower (String.mk (c :: cs)), rest)
          else none
      | [] => none
  | _ => none

def isHostEndChar (c : Char) : Bool :=
  c = '/' || c = ':' || c = '?' || c = '#'

/-- Model of the platform WHATWG URL constructor `new URL(raw,
"http://localhost")`, restricted to the fragment the dialog manager feeds it:
an absolute reference `scheme://host...` or `scheme:opaque`, or a reference
without a valid scheme, which resolves against the base
`http://localhost`.  An authority with an empty host fails to parse
(the constructor throws). -/
def parseURL (raw : String) : Option URLRec :=
  match parseScheme raw with
  | some sr =>
      match sr.2 with
      | '/' :: '/' :: body =>
          let host := body.takeWhile (fun c => !isHostEndChar c)
          let rest := body.dropWhile (fun c => !isHostEndChar c)
          if host.isEmpty then none
          else
            some { protocol := sr.1 ++ ":",
                   hostname := asciiLower (String.mk host),
                   hasAuthority := true, rest := String.mk rest }
      | afterColon =>
          some { protocol := sr.1 ++ ":", hostname := "",
                 hasAuthority := false, rest := String.mk afterColon }
  | none =>
      some { protocol := "http:", hostname := "localhost",
             hasAuthority := true,
             rest :=
               match raw.toList with
               | '/' :: _ => raw
               | _ => "/" ++ raw }

/-- Embedding of `OAuthDialogManager.sanitizeUrl` (dialog-manager.ts): parse with base
`http://localhost`; keep the URL when the protocol is http or https or the
hostname is localhost or 127.0.0.1; otherwise, and when parsing throws,
return the string about:blank. -/
def sanitizeUrl (raw : String) : String :=
  match parseURL raw with
  | some url =>
      if url.protocol = "http:" ∨ url.protocol = "https:" ∨
         url.hostname = "localhost" ∨ url.hostname = "127.0.0.1" then
        urlToString url
      else "about:blank"
  | none => "about:blank"

/-! ## Claim C7: OAuth state expiry -/

/-- Claim C7: state validation rejects every OAuth State Entry whose recorded
issue timestamp is more than 5 minutes (300000 ms) older than the current
time, returning failure and deleting that entry from the in-flight state
registry as part of the check; the matching, non-expired case returns
success. -/
theorem c7_state_expiry (state : String) (store : SMap OAuthState) (now : Int)
    (entry : OAuthState) (hfound : store.get? state = some entry) :
    (now - entry.timestamp > 300000 →
      verifyOAuthState state store now = (false, store.del state) ∧
      (store.del state).get? state = none) ∧
    (now - entry.timestamp ≤ 300000 →
      verifyOAuthState state store now = (true, store)) := by
  refine ⟨fun hexp => ⟨?_, SMap.get?_del_self store state⟩, fun hfresh => ?_⟩
  · simp [verifyOAuthState, hfound, hexp]
  · simp only [verifyOAuthState, hfound]
    rw [if_neg (by omega)]

/-- Witness for C7: one expired and one fresh lookup on a concrete
registry. -/
theorem c7_state_expiry_witness :
    (verifyOAuthState "s" [("s", OAuthState.mk 0 "https://srv")] 300001 =
        (false, SMap.del [("s", OAuthState.mk 0 "https://srv")] "s") ∧
      SMap.get? (SMap.del [("s", OAuthState.mk 0 "https://srv")] "s") "s" =
        none) ∧
    verifyOAuthState "s" [("s", OAuthState.mk 0 "https://srv")] 300000 =
      (true, [("s", OAuthState.mk 0 "https://srv")]) :=
  ⟨(c7_state_expiry "s" [("s", OAuthState.mk 0 "https://srv")] 300001
      (OAuthState.mk 0 "https://srv") (by decide)).1 (by decide),
   (c7_state_expiry "s" [("s", OAuthState.mk 0 "https://srv")] 300000
      (OAuthState.mk 0 "https://srv") (by decide)).2 (by decide)⟩

/-! ## Claim C6: duplicate callback idempotency -/

/-- Claim C6: a callback request (code present, no error parameter) whose
state is absent from the in-flight registry but present in the completed
registry responds with a success page flagged already-authenticated and
returns without invoking the finishAuth code exchange a second time; both
registries are left unchanged. -/
theorem c6_duplicate_callback (code : Option String) (s : String)
    (error : Option String) (store completed : SMap OAuthState) (now : Int)
    (finishAuthFails : Bool) (entry : OAuthState)
    (hcode : isTruthy code = true) (herr : isTruthy error = false)
    (hs : s ≠ "") (hnotInflight : store.get? s = none)
    (hcompleted : completed.get? s = some entry) :
    handleCallback code (some s) error store completed now finishAuthFails =
      { response := .successPage (urlOrNull (some entry)) true,
        finishAuthCalls := [],
        globalStateStore := store,
        globalStateStoreCompleted := completed,
        emitted := [], stopRequested := true } := by
  have hst : isTruthy (some s) = true := by simp [isTruthy, hs]
  have hv : verifyOAuthState s store now = (false, store) := by
    simp [verifyOAuthState, hnotInflight]
  have hhas : completed.has s = true := by simp [SMap.has, hcompleted]
  simp [handleCallback, herr, hst, hcode, hv, hhas, hcompleted]

/-- Witness for C6: a concrete revisit of a completed state. -/
theorem c6_duplicate_callback_witness :
    handleCallback (some "authcode") (some "st") none []
        [("st", OAuthState.mk 5 "https://srv")] 999 false =
      { response := .successPage "https://srv" true,
        finishAuthCalls := [],
        globalStateStore := [],
        globalStateStoreCompleted := [("st", OAuthState.mk 5 "https://srv")],
        emitted := [], stopRequested := true } := by
  have h := c6_duplicate_callback (some "authcode") "st" none []
    [("st", OAuthState.mk 5 "https://srv")] 999 false
    (OAuthState.mk 5 "https://srv") (by decide) (by decide) (by decide)
    (by decide) (by decide)
  simpa [urlOrNull] using h

/-! ## Claim C9: shape of the stored-token read -/

/-- Counterexample to C9 as stated: a stored record whose access token is the
empty string passes the typeof checks, so tokens() still returns the record
(the claim requires a non-empty access token and undefined otherwise). -/
theorem c9_counterexample :
    tokens (some (TokenSchema.mk (some "") (some "bearer") none none
        (some 7))) =
      some (OAuthTokens.mk (some "") (some "bearer") none none) ∧
    tokens (some (TokenSchema.mk (some "") (some "bearer") none none
        (some 7))) ≠ none := by
  decide

/-- Claim C9 (amended): tokens() returns the stored Token Record with the
createdAt timestamp stripped exactly when the record is present and both the
access token and the token type are strings (emptiness is not checked); with
no stored record or either field missing it returns undefined. -/
theorem c9_tokens_shape (stored : Option TokenSchema) (st : TokenSchema) :
    (tokens none = none) ∧
    (st.access_token = none → tokens (some st) = none) ∧
    (st.token_type = none → tokens (some st) = none) ∧
    (st.access_token.isSome = true → st.token_type.isSome = true →
      tokens (some st) = some (omitCreatedAt st)) ∧
    ((tokens stored).isSome = true →
      ∃ t, stored = some t ∧ t.access_token.isSome = true ∧
        t.token_type.isSome = true ∧ tokens stored = some (omitCreatedAt t)) := by
  refine ⟨rfl, fun h => ?_, fun h => ?_, fun h₁ h₂ => ?_, fun h => ?_⟩
  · simp [tokens, h]
  · simp [tokens, h]
  · simp [tokens, h₁, h₂]
  · cases stored with
    | none => simp [tokens] at h
    | some t =>
        by_cases hc : t.access_token.isSome = true ∧ t.token_type.isSome = true
        · exact ⟨t, rfl, hc.1, hc.2, by simp [tokens, hc.1, hc.2]⟩
        · exfalso
          rw [Classical.not_and_iff_or_not_not] at hc
          rcases hc with hc | hc <;>
            simp [tokens, Bool.not_eq_true] at h <;>
            simp [Bool.not_eq_true] at hc <;>
            simp [hc] at h

/-- Witness for C9: a concrete stored record with both fields present. -/
theorem c9_tokens_shape_witness :
    tokens (some (TokenSchema.mk (some "tok") (some "bearer") none none
        (some 3))) =
      some (omitCreatedAt (TokenSchema.mk (some "tok") (some "bearer") none
        none (some 3))) :=
  (c9_tokens_shape none (TokenSchema.mk (some "tok") (some "bearer") none none
    (some 3))).2.2.2.1 (by decide) (by decide)

/-! ## Claim C3: refresh-token disambiguation -/

/-- Counterexample to C3 as stated: after the second consecutive
identical-refresh-token save the stored record is indeed deleted, but the
refresh-retry counter reads 1, not zero — the reset is followed by the
unconditional trailing increment of validateRefTokenUnauth. -/
theorem c3_counterexample :
    (saveTokens (OAuthTokens.mk (some "at") (some "bearer") (some "rt") none)
        (some (TokenSchema.mk (some "at") (some "bearer") (some "rt") none
          (some 0)))
        (some (ProxyState.mk 0 1 none)) 20).tokenFile = none ∧
    (saveTokens (OAuthTokens.mk (some "at") (some "bearer") (some "rt") none)
        (some (TokenSchema.mk (some "at") (some "bearer") (some "rt") none
          (some 0)))
        (some (ProxyState.mk 0 1 none)) 20).proxy =
      some (ProxyState.mk 0 1 none) ∧
    ¬ ((saveTokens (OAuthTokens.mk (some "at") (some "bearer") (some "rt")
          none)
        (some (TokenSchema.mk (some "at") (some "bearer") (some "rt") none
          (some 0)))
        (some (ProxyState.mk 0 1 none)) 20).proxy =
      some (ProxyState.mk 0 0 none)) := by
  decide

/-- Claim C3 (amended): on a save whose refresh token is byte-identical to
the stored one the refresh-retry disambiguation runs; the save is committed
only when the counter is exactly zero after validateRefTokenUnauth (in fact
it is never committed on this branch, the counter always ends positive); the
first occurrence increments the counter from 0 to 1 without overwriting the
stored record; the second consecutive occurrence deletes the stored record
outright and resets the counter to zero before the shared trailing increment
leaves it at one. -/
theorem c3_refresh_disambiguation (tok : OAuthTokens) (st : TokenSchema)
    (p : ProxyState) (proxyInstance : Option ProxyState) (now : Int)
    (hident : identicalRefresh (some st) tok = true) :
    ((saveTokens tok (some st) proxyInstance now).committed = true →
      ∃ q, proxyInstance = some q ∧
        (validateRefTokenUnauth q (some st)).1.currentRefreshRetry = 0) ∧
    ((saveTokens tok (some st) proxyInstance now).committed = false) ∧
    (p.currentRefreshRetry = 0 →
      saveTokens tok (some st) (some p) now =
        { tokenFile := some st,
          proxy := some { p with currentRefreshRetry := 1 },
          committed := false }) ∧
    (p.currentRefreshRetry > 0 →
      saveTokens tok (some st) (some p) now =
        { tokenFile := none,
          proxy := some { p with currentRefreshRetry := 1 },
          committed := false }) := by
  have hnever : ∀ q : ProxyState,
      (validateRefTokenUnauth q (some st)).1.currentRefreshRetry ≠ 0 := by
    intro q
    simp only [validateRefTokenUnauth]
    split <;> simp
  refine ⟨?_, ?_, fun h0 => ?_, fun hpos => ?_⟩
  · intro hcom
    exfalso
    cases proxyInstance with
    | none => simp [saveTokens, hident] at hcom
    | some q =>
        simp only [saveTokens, hident, if_pos] at hcom
        rw [if_neg (hnever q)] at hcom
        simp at hcom
  · cases proxyInstance with
    | none => simp [saveTokens, hident]
    | some q =>
        simp only [saveTokens, hident, if_pos, if_true]
        rw [if_neg (hnever q)]
  · have : ¬ p.currentRefreshRetry > 0 := by omega
    simp [saveTokens, hident, validateRefTokenUnauth, this, h0]
  · simp [saveTokens, hident, validateRefTokenUnauth, hpos]

/-- Witness for C3: the first identical-refresh save on a concrete state
leaves the stored record in place and bumps the counter to one. -/
theorem c3_refresh_disambiguation_witness :
    saveTokens (OAuthTokens.mk (some "at") (some "bearer") (some "rt") none)
        (some (TokenSchema.mk (some "at") (some "bearer") (some "rt") none
          (some 0)))
        (some freshProxyState) 10 =
      { tokenFile := some (TokenSchema.mk (some "at") (some "bearer")
          (some "rt") none (some 0)),
        proxy := some { freshProxyState with currentRefreshRetry := 1 },
        committed := false } :=
  (c3_refresh_disambiguation
    (OAuthTokens.mk (some "at") (some "bearer") (some "rt") none)
    (TokenSchema.mk (some "at") (some "bearer") (some "rt") none (some 0))
    freshProxyState (some freshProxyState) 10 (by decide)).2.2.1 (by decide)

/-! ## Relay lemmas shared by C1, C2, C4, C5 -/

theorem setup_of_setupSync_none (cfg : RootConfig) (urlHash : String)
    (instances : SMap ProxyState) (outcome : SendOutcome)
    (h : (setupSync cfg urlHash instances).2 = none) :
    setup cfg urlHash instances outcome =
      (setupSync cfg urlHash instances).1 := by
  simp [setup, h]

theorem setupSync_exhausted (cfg : RootConfig) (urlHash : String)
    (instances : SMap ProxyState) (p : ProxyState) (m : JSONRPCMessage)
    (hget : instances.get? urlHash = some p)
    (hm : p.stalledMsgByUnAuth = some m)
    (hge : p.currentRetry ≥ cfg.unauthRetries) :
    setupSync cfg urlHash instances =
      ({ proxyInstances := instances, attempts := [], exitCode := some 1,
         createdNewProxy := false }, none) := by
  simp [setupSync, hget, hm, hge]

theorem setup_replay_step (cfg : RootConfig) (urlHash : String)
    (instances : SMap ProxyState) (p : ProxyState) (m : JSONRPCMessage)
    (hdr : hasKeyInJson cfg.headers "Authorization" = false)
    (hget : instances.get? urlHash = some p)
    (hm : p.stalledMsgByUnAuth = some m)
    (hlt : p.currentRetry < cfg.unauthRetries) :
    setup cfg urlHash instances .authError =
      { proxyInstances :=
          (instances.set urlHash { p with stalledMsgByUnAuth := none }).set
            urlHash
            { p with currentRetry := p.currentRetry + 1,
                     stalledMsgByUnAuth := some m },
        attempts := [m], exitCode := none, createdNewProxy := false } := by
  have hnotge : ¬ p.currentRetry ≥ cfg.unauthRetries := Nat.not_le.mpr hlt
  simp [setup, setupSync, hget, hm, hnotge, applyOutcome,
    SMap.get?_set_self, resolveSend, hdr]

theorem runFailingReplays_exited (cfg : RootConfig) (urlHash : String)
    (k : Nat) (instances : SMap ProxyState) (e : Nat) :
    runFailingReplays cfg urlHash k instances (some e) = 0 := by
  cases k <;> simp [runFailingReplays]

theorem runFailingReplays_le (cfg : RootConfig) (urlHash : String)
    (hdr : hasKeyInJson cfg.headers "Authorization" = false) :
    ∀ (k : Nat) (instances : SMap ProxyState) (p : ProxyState)
      (m : JSONRPCMessage),
      instances.get? urlHash = some p →
      p.stalledMsgByUnAuth = some m →
      runFailingReplays cfg urlHash k instances none ≤
        cfg.unauthRetries - p.currentRetry := by
  intro k
  induction k with
  | zero =>
      intro instances p m _ _
      simp [runFailingReplays]
  | succ k ih =>
      intro instances p m hget hm
      by_cases hge : p.currentRetry ≥ cfg.unauthRetries
      · have hs := setupSync_exhausted cfg urlHash instances p m hget hm hge
        have hsetup : setup cfg urlHash instances .authError =
            { proxyInstances := instances, attempts := [], exitCode := some 1,
              createdNewProxy := false } := by
          rw [setup_of_setupSync_none cfg urlHash instances .authError
            (by rw [hs]), hs]
        simp [runFailingReplays, hsetup, runFailingReplays_exited]
      · have hlt : p.currentRetry < cfg.unauthRetries := Nat.lt_of_not_le hge
        have hsetup := setup_replay_step cfg urlHash instances p m hdr hget hm
          hlt
        have hget' : ((instances.set urlHash { p with stalledMsgByUnAuth := none }).set urlHash { p with currentRetry := p.currentRetry + 1, stalledMsgByUnAuth := some m }).get? urlHash = some ({ p with currentRetry := p.currentRetry + 1, stalledMsgByUnAuth := some m } : ProxyState) :=
          SMap.get?_set_self _ _ _
        have hrec := ih _ _ m hget' rfl
        simp only [runFailingReplays, hsetup, List.length_cons,
          List.length_nil] at hrec ⊢
        omega

theorem oneParkedFailureAttempts_le (cfg : RootConfig) (urlHash : String)
    (m : JSONRPCMessage) (k : Nat)
    (hdr : hasKeyInJson cfg.headers "Authorization" = false) :
    oneParkedFailureAttempts cfg urlHash m k ≤ cfg.unauthRetries + 1 := by
  have hb := runFailingReplays_le cfg urlHash hdr k
    (SMap.set [] urlHash
      { currentRetry := 1, currentRefreshRetry := 0,
        stalledMsgByUnAuth := some m })
    { currentRetry := 1, currentRefreshRetry := 0,
      stalledMsgByUnAuth := some m } m (SMap.get?_set_self _ _ _) rfl
  simp only [oneParkedFailureAttempts, sendServerTransportMessage,
    resolveSend, hdr, Bool.false_eq_true, if_false, freshProxyState,
    Nat.zero_add, List.length_cons, List.length_nil] at hb ⊢
  omega

/-! ## Claim C1: park and exactly-once replay -/

/-- Claim C1: an outbound send that fails with an authorization error parks
the message in the single parked-message slot; on the callback success path
the OAuth State Entry moves to the completed registry before the
oauth-success event that triggers the replay fires; the replay re-sends the
parked message exactly once and the slot is empty immediately after the
replay, before the send outcome can arrive; and a Relay Instance can never
hold more than one parked message. -/
theorem c1_park_replay_once (cfg : RootConfig) (urlHash s : String)
    (instances : SMap ProxyState) (p q : ProxyState) (m : JSONRPCMessage)
    (store completed : SMap OAuthState) (entry : OAuthState) (now : Int)
    (code : Option String)
    (hdr : hasKeyInJson cfg.headers "Authorization" = false) :
    ((resolveSend cfg m .authError p).1.stalledMsgByUnAuth = some m) ∧
    (isTruthy code = true → s ≠ "" → store.get? s = some entry →
      now - entry.timestamp ≤ 300000 →
      (handleCallback code (some s) none store completed now
        false).globalStateStoreCompleted.get? s = some entry ∧
      (handleCallback code (some s) none store completed now false).emitted =
        [some entry.url]) ∧
    (instances.get? urlHash = some p → p.stalledMsgByUnAuth = some m →
      p.currentRetry < cfg.unauthRetries →
      (setupSync cfg urlHash instances).1.attempts = [m] ∧
      (setupSync cfg urlHash instances).1.proxyInstances.get? urlHash =
        some { p with stalledMsgByUnAuth := none }) ∧
    (q.stalledMsgByUnAuth.toList.length ≤ 1) := by
  refine ⟨by simp [resolveSend, hdr], fun hcode hs hentry hfresh => ?_,
    fun hget hm hlt => ?_, ?_⟩
  · have hst : isTruthy (some s) = true := by simp [isTruthy, hs]
    have herr0 : isTruthy (none : Option String) = false := rfl
    have hv : verifyOAuthState s store now = (true, store) := by
      simp only [verifyOAuthState, hentry]
      rw [if_neg (by omega)]
    constructor
    · simp [handleCallback, hst, hcode, herr0, hv, hentry,
        SMap.get?_set_self]
    · simp [handleCallback, hst, hcode, herr0, hv, hentry]
  · have hnotge : ¬ p.currentRetry ≥ cfg.unauthRetries := Nat.not_le.mpr hlt
    constructor
    · simp [setupSync, hget, hm, hnotge]
    · simp [setupSync, hget, hm, hnotge, SMap.get?_set_self]
  · cases hq : q.stalledMsgByUnAuth <;> simp [hq]

/-- Witness for C1: a concrete park, a concrete completed-registry
transition with emission, and a concrete single replay. -/
theorem c1_park_replay_once_witness :
    ((resolveSend defaultRootConfig "msg" .authError
        freshProxyState).1.stalledMsgByUnAuth = some "msg") ∧
    ((handleCallback (some "c") (some "st") none
        [("st", OAuthState.mk 0 "https://srv")] [] 100
        false).globalStateStoreCompleted.get? "st" =
      some (OAuthState.mk 0 "https://srv")) ∧
    ((handleCallback (some "c") (some "st") none
        [("st", OAuthState.mk 0 "https://srv")] [] 100 false).emitted =
      [some "https://srv"]) ∧
    ((setupSync defaultRootConfig "h"
        [("h", ProxyState.mk 1 0 (some "msg"))]).1.attempts = ["msg"]) ∧
    ((setupSync defaultRootConfig "h"
        [("h", ProxyState.mk 1 0 (some "msg"))]).1.proxyInstances.get? "h" =
      some (ProxyState.mk 1 0 none)) := by
  obtain ⟨h1, h2, h3, _⟩ := c1_park_replay_once defaultRootConfig "h" "st"
    [("h", ProxyState.mk 1 0 (some "msg"))] (ProxyState.mk 1 0 (some "msg"))
    freshProxyState "msg" [("st", OAuthState.mk 0 "https://srv")] []
    (OAuthState.mk 0 "https://srv") 100 (some "c") (by decide)
  obtain ⟨h2a, h2b⟩ := h2 (by decide) (by decide) (by decide) (by decide)
  obtain ⟨h3a, h3b⟩ := h3 (by decide) (by decide) (by decide)
  exact ⟨h1, h2a, h2b, h3a, h3b⟩

/-! ## Claim C2: retry counters and the attempt bound -/

/-- Claim C2: the initial-auth and refresh retry counters increment
independently; every successful send resets both to zero; the configured
maximum defaults to 3; a replay attempted with an exhausted initial-auth
budget exits the process with code 1 before sending; and one parked
authorization failure leads to at most max+1 send attempts in total. -/
theorem c2_retry_bounds (cfg : RootConfig) (m : JSONRPCMessage)
    (p : ProxyState) (tokenFile : Option TokenSchema) (urlHash : String)
    (instances : SMap ProxyState) (q : ProxyState) (k : Nat)
    (hdr : hasKeyInJson cfg.headers "Authorization" = false) :
    (resolveSend cfg m .ok p =
      ({ p with currentRetry := 0, currentRefreshRetry := 0 }, none)) ∧
    ((resolveSend cfg m .authError p).1.currentRetry = p.currentRetry + 1 ∧
      (resolveSend cfg m .authError p).1.currentRefreshRetry =
        p.currentRefreshRetry) ∧
    ((validateRefTokenUnauth p tokenFile).1.currentRetry = p.currentRetry ∧
      (validateRefTokenUnauth p tokenFile).1.currentRefreshRetry =
        (if p.currentRefreshRetry > 0 then 0 else p.currentRefreshRetry) + 1) ∧
    defaultRootConfig.unauthRetries = 3 ∧
    (instances.get? urlHash = some q → q.stalledMsgByUnAuth = some m →
      q.currentRetry ≥ cfg.unauthRetries →
      (setupSync cfg urlHash instances).1.exitCode = some 1 ∧
      (setupSync cfg urlHash instances).1.attempts = []) ∧
    (oneParkedFailureAttempts cfg urlHash m k ≤ cfg.unauthRetries + 1) := by
  refine ⟨by simp [resolveSend], ⟨?_, ?_⟩, ⟨?_, ?_⟩, rfl,
    fun hget hm hge => ?_, oneParkedFailureAttempts_le cfg urlHash m k hdr⟩
  · simp [resolveSend, hdr]
  · simp [resolveSend, hdr]
  · simp only [validateRefTokenUnauth]
    split <;> simp
  · simp only [validateRefTokenUnauth]
    split <;> simp_all
  · rw [setupSync_exhausted cfg urlHash instances q m hget hm hge]
    exact ⟨rfl, rfl⟩

/-- Witness for C2 at concrete inputs, including the exhausted-budget exit
and the attempt bound at the default maximum. -/
theorem c2_retry_bounds_witness :
    (resolveSend defaultRootConfig "m" .ok (ProxyState.mk 2 1 (some "m")) =
      (ProxyState.mk 0 0 (some "m"), none)) ∧
    ((setupSync defaultRootConfig "h"
        [("h", ProxyState.mk 3 0 (some "m"))]).1.exitCode = some 1) ∧
    ((setupSync defaultRootConfig "h"
        [("h", ProxyState.mk 3 0 (some "m"))]).1.attempts = []) ∧
    (oneParkedFailureAttempts defaultRootConfig "h" "m" 9 ≤ 4) := by
  obtain ⟨h1, _, _, _, h5, h6⟩ := c2_retry_bounds defaultRootConfig "m"
    (ProxyState.mk 2 1 (some "m")) none "h"
    [("h", ProxyState.mk 3 0 (some "m"))] (ProxyState.mk 3 0 (some "m")) 9
    (by decide)
  obtain ⟨h5a, h5b⟩ := h5 (by decide) (by decide) (by decide)
  exact ⟨h1, h5a, h5b, h6⟩

/-! ## Claim C4: one Relay Instance per url hash, reused on re-setup -/

/-- Claim C4: a well-formed instance registry stays well-formed (at most one
Relay Instance per url hash) across setup; a setup call for an already
registered url hash never constructs a new proxy or new transports, and with
no parked message it leaves the registry — including the parked-message slot
and retry counters of the existing instance — completely unchanged; an
unregistered hash gets exactly one freshly constructed instance. -/
theorem c4_instance_reuse (cfg : RootConfig) (urlHash : String)
    (instances : SMap ProxyState) (outcome : SendOutcome) (p : ProxyState) :
    (instances.WF → (setup cfg urlHash instances outcome).proxyInstances.WF) ∧
    (instances.get? urlHash = some p →
      (setup cfg urlHash instances outcome).createdNewProxy = false) ∧
    (instances.get? urlHash = some p → p.stalledMsgByUnAuth = none →
      setup cfg urlHash instances outcome =
        { proxyInstances := instances, attempts := [], exitCode := none,
          createdNewProxy := false }) ∧
    (instances.get? urlHash = none →
      (setup cfg urlHash instances outcome).createdNewProxy = true ∧
      (setup cfg urlHash instances outcome).proxyInstances =
        instances.set urlHash freshProxyState) := by
  refine ⟨fun hwf => ?_, fun hget => ?_, fun hget hnone => ?_, fun hget => ?_⟩
  · cases hg : instances.get? urlHash with
    | some pi =>
        cases hs : pi.stalledMsgByUnAuth with
        | some msg =>
            by_cases hge : pi.currentRetry ≥ cfg.unauthRetries
            · simpa [setup, setupSync, hg, hs, hge] using hwf
            · simp [setup, setupSync, hg, hs, hge, applyOutcome,
                SMap.get?_set_self]
              exact SMap.wf_set _ _ _ (SMap.wf_set _ _ _ hwf)
        | none => simpa [setup, setupSync, hg, hs] using hwf
    | none =>
        simp [setup, setupSync, hg]
        exact SMap.wf_set _ _ _ hwf
  · cases hs : p.stalledMsgByUnAuth with
    | some msg =>
        by_cases hge : p.currentRetry ≥ cfg.unauthRetries
        · simp [setup, setupSync, hget, hs, hge]
        · simp [setup, setupSync, hget, hs, hge, applyOutcome,
            SMap.get?_set_self]
    | none => simp [setup, setupSync, hget, hs]
  · simp [setup, setupSync, hget, hnone]
  · constructor <;> simp [setup, setupSync, hget]

/-- Witness for C4: a concrete registered hash is reused untouched and a
concrete fresh hash allocates exactly one instance. -/
theorem c4_instance_reuse_witness :
    (setup defaultRootConfig "h" [("h", freshProxyState)] .ok =
      { proxyInstances := [("h", freshProxyState)], attempts := [],
        exitCode := none, createdNewProxy := false }) ∧
    ((setup defaultRootConfig "g" [("h", freshProxyState)]
        .ok).createdNewProxy = true) ∧
    ((setup defaultRootConfig "g" [("h", freshProxyState)]
        .ok).proxyInstances =
      SMap.set [("h", freshProxyState)] "g" freshProxyState) := by
  obtain ⟨_, _, h3, _⟩ := c4_instance_reuse defaultRootConfig "h"
    [("h", freshProxyState)] .ok freshProxyState
  obtain ⟨_, _, _, h4⟩ := c4_instance_reuse defaultRootConfig "g"
    [("h", freshProxyState)] .ok freshProxyState
  obtain ⟨h4a, h4b⟩ := h4 (by decide)
  exact ⟨h3 (by decide) (by decide), h4a, h4b⟩

/-! ## Claim C5: static Authorization header makes a 401 fatal -/

/-- Claim C5: when the operator-supplied headers contain an Authorization
key, an outbound send failing with an authorization error terminates the
process with the non-zero exit code 1, leaves the instance state — including
the parked-message slot — untouched, and no Authorization Provider is
attached to the server transport, so the interactive OAuth flow cannot be
invoked. -/
theorem c5_static_header_fatal (cfg : RootConfig) (m : JSONRPCMessage)
    (p : ProxyState)
    (hdr : hasKeyInJson cfg.headers "Authorization" = true) :
    (sendServerTransportMessage cfg m .authError p).exitCode = some 1 ∧
    (sendServerTransportMessage cfg m .authError p).state = p ∧
    (∀ e, (sendServerTransportMessage cfg m .authError p).exitCode = some e →
      e ≠ 0) ∧
    authProviderAttached cfg = false := by
  refine ⟨?_, ?_, fun e he => ?_, ?_⟩
  · simp [sendServerTransportMessage, resolveSend, hdr]
  · simp [sendServerTransportMessage, resolveSend, hdr]
  · simp [sendServerTransportMessage, resolveSend, hdr] at he
    omega
  · simp [authProviderAttached, hdr]

/-- Witness for C5: a concrete configuration with a pinned Authorization
header. -/
theorem c5_static_header_fatal_witness :
    (sendServerTransportMessage
        { headers := [("Authorization", "Bearer abc")], unauthRetries := 3 }
        "m" .authError freshProxyState).exitCode = some 1 ∧
    (sendServerTransportMessage
        { headers := [("Authorization", "Bearer abc")], unauthRetries := 3 }
        "m" .authError freshProxyState).state = freshProxyState ∧
    authProviderAttached
        { headers := [("Authorization", "Bearer abc")], unauthRetries := 3 } =
      false := by
  obtain ⟨h1, h2, _, h4⟩ := c5_static_header_fatal
    { headers := [("Authorization", "Bearer abc")], unauthRetries := 3 } "m"
    freshProxyState (by decide)
  exact ⟨h1, h2, h4⟩

/-! ## Claim C8: PKCE verifier caching and challenge computation -/

theorem base64urlEncode_ne_empty (bytes : List Nat) (h : bytes ≠ []) :
    base64urlEncode bytes ≠ "" := by
  match bytes with
  | [] => exact absurd rfl h
  | [a] =>
      intro hc
      have := congrArg String.data hc
      simp [base64urlEncode, base64urlChunks] at this
  | [a, b] =>
      intro hc
      have := congrArg String.data hc
      simp [base64urlEncode, base64urlChunks] at this
  | a :: b :: c :: rest =>
      intro hc
      have := congrArg String.data hc
      simp [base64urlEncode, base64urlChunks] at this

/-- Claim C8: the PKCE verifier for a Server Identity is generated once as
the URL-safe base64 encoding of 32 random bytes and cached by url hash, so a
second codeVerifier call returns the same string and leaves the cache
unchanged; generateCodeChallenge on a verifier equals the URL-safe base64
encoding of the SHA-256 digest of the verifier; and the challenge method is
always the string S256. -/
theorem c8_pkce (urlHash : String) (store : SMap String)
    (randBytes randBytes2 : List Nat) (v : String)
    (h32 : randBytes.length = 32) (hv : v ≠ "") :
    (isTruthy (store.get? urlHash) = false →
      (codeVerifier urlHash store randBytes).1 =
        base64urlEncode randBytes) ∧
    (codeVerifier urlHash (codeVerifier urlHash store randBytes).2
        randBytes2 =
      ((codeVerifier urlHash store randBytes).1,
       (codeVerifier urlHash store randBytes).2)) ∧
    (generateCodeChallenge (some v) urlHash store randBytes =
      specCodeChallenge v) ∧
    (getCodeChallengeMethod = "S256") := by
  have hne : randBytes ≠ [] := by
    intro hnil
    rw [hnil] at h32
    simp at h32
  have henc : base64urlEncode randBytes ≠ "" :=
    base64urlEncode_ne_empty randBytes hne
  refine ⟨fun hmiss => ?_, ?_, ?_, rfl⟩
  · simp [codeVerifier, hmiss, generatePKCECodeVerifier]
  · cases hcache : isTruthy (store.get? urlHash) with
    | true =>
        simp [codeVerifier, hcache]
    | false =>
        have hget : ((store.set urlHash
            (base64urlEncode randBytes)).get? urlHash) =
            some (base64urlEncode randBytes) := SMap.get?_set_self _ _ _
        have hcache2 : isTruthy ((store.set urlHash
            (base64urlEncode randBytes)).get? urlHash) = true := by
          rw [hget]
          simp [isTruthy, henc]
        simp [codeVerifier, hcache, generatePKCECodeVerifier, hget, hcache2]
        intro hfalse
        simp [isTruthy, henc] at hfalse
  · simp [generateCodeChallenge, specCodeChallenge, isTruthy, hv]

/-- Witness for C8 at a concrete cache, 32 concrete random bytes and the
concrete verifier string abc. -/
theorem c8_pkce_witness :
    ((codeVerifier "h" [] (List.range 32)).1 =
      base64urlEncode (List.range 32)) ∧
    (codeVerifier "h" (codeVerifier "h" [] (List.range 32)).2 [] =
      ((codeVerifier "h" [] (List.range 32)).1,
       (codeVerifier "h" [] (List.range 32)).2)) ∧
    (generateCodeChallenge (some "abc") "h" [] (List.range 32) =
      specCodeChallenge "abc") ∧
    (getCodeChallengeMethod = "S256") := by
  obtain ⟨ha, hb, hc, hd⟩ := c8_pkce "h" [] (List.range 32) [] "abc"
    (by decide) (by decide)
  exact ⟨ha (by decide), hb, hc, hd⟩

/-! ## Claim C10: URL sanitizing for the browser-open capability -/

/-- Counterexample to C10 as stated: the input ftp://localhost/x parses to a
URL whose scheme is ftp — neither http nor https — yet sanitizeUrl returns it
untouched because its hostname is localhost, so the browser-open capability
is handed a URL of another scheme. -/
theorem c10_counterexample :
    sanitizeUrl "ftp://localhost/x" = "ftp://localhost/x" ∧
    parseURL "ftp://localhost/x" =
      some { protocol := "ftp:", hostname := "localhost",
             hasAuthority := true, rest := "/x" } ∧
    sanitizeUrl "ftp://localhost/x" ≠ "about:blank" ∧
    ¬ ("ftp:" = "http:" ∨ "ftp:" = "https:") := by
  refine ⟨by decide, by decide, by decide, by decide⟩

/-- Claim C10 (amended): the sanitizer is total and returns either the string
about:blank or the string of the parsed URL, the latter exactly when the
parsed protocol is http or https or the parsed hostname is localhost or
127.0.0.1 — so a URL of another scheme can still be handed over when its
hostname is localhost or 127.0.0.1. -/
theorem c10_sanitize_allowlist (raw : String) :
    sanitizeUrl raw = "about:blank" ∨
    ∃ u, parseURL raw = some u ∧
      (u.protocol = "http:" ∨ u.protocol = "https:" ∨
       u.hostname = "localhost" ∨ u.hostname = "127.0.0.1") ∧
      sanitizeUrl raw = urlToString u := by
  cases hp : parseURL raw with
  | none =>
      left
      simp [sanitizeUrl, hp]
  | some u =>
      by_cases hc : u.protocol = "http:" ∨ u.protocol = "https:" ∨
          u.hostname = "localhost" ∨ u.hostname = "127.0.0.1"
      · right
        exact ⟨u, rfl, hc, by simp [sanitizeUrl, hp, hc]⟩
      · left
        simp [sanitizeUrl, hp, hc]

end McpConnector
